import Mathlib

/-!
# OpenStack LB monitor (v1) resource: schema and CRUD reconciliation

A shallow embedding of `builtin/providers/openstack/resource_openstack_lb_monitor_v1.go`.

* The schema map of `resourceLBMonitorV1` is an association list in source order.
* `*schema.ResourceData` is a value that is passed in and returned.
* The gophercloud networking client is a record of transition functions over an
  abstract remote state `σ`; every request that is sent is appended to a call log.
* A Go `error` result is `Option String` (`none` is `nil`).
-/

namespace LBMonitorV1

/-! ## Schema -/

/-- The two `schema.ValueType`s used by this resource. -/
inductive ValueType where
  | TypeString
  | TypeInt
  deriving DecidableEq, Repr

/-- The fields of `schema.Schema` that the resource sets. `DefaultFunc` holds the name of
the environment variable handed to `envDefaultFunc`. -/
structure Schema where
  Typ : ValueType
  Required : Bool := false
  Optional : Bool := false
  ForceNew : Bool := false
  DefaultFunc : Option String := none
  deriving DecidableEq, Repr

/-- The part of `schema.Resource` that is data: the schema map. -/
structure Resource where
  Schema : List (String × Schema)
  deriving DecidableEq, Repr

/-- The schema of `resourceLBMonitorV1`, entry by entry as in the source. -/
def resourceLBMonitorV1 : Resource :=
  { Schema := [
      ("region",
        { Typ := .TypeString, Required := true, ForceNew := true,
          DefaultFunc := some "OS_REGION_NAME" }),
      ("tenant_id", { Typ := .TypeString, Optional := true, ForceNew := true }),
      ("type", { Typ := .TypeString, Required := true, ForceNew := true }),
      ("delay", { Typ := .TypeInt, Required := true, ForceNew := false }),
      ("timeout", { Typ := .TypeInt, Required := true, ForceNew := false }),
      ("max_retries", { Typ := .TypeInt, Required := true, ForceNew := false }),
      ("url_path", { Typ := .TypeString, Optional := true, ForceNew := false }),
      ("http_method", { Typ := .TypeString, Optional := true, ForceNew := false }),
      ("expected_codes", { Typ := .TypeString, Optional := true, ForceNew := false }),
      ("admin_state_up", { Typ := .TypeString, Optional := true, ForceNew := false })] }

/-- The keys of the schema map. -/
inductive Key where
  | region
  | tenant_id
  | type
  | delay
  | timeout
  | max_retries
  | url_path
  | http_method
  | expected_codes
  | admin_state_up
  deriving DecidableEq, Repr

/-- The string under which a key appears in the schema map. -/
def Key.name : Key → String
  | .region => "region"
  | .tenant_id => "tenant_id"
  | .type => "type"
  | .delay => "delay"
  | .timeout => "timeout"
  | .max_retries => "max_retries"
  | .url_path => "url_path"
  | .http_method => "http_method"
  | .expected_codes => "expected_codes"
  | .admin_state_up => "admin_state_up"

/-- The schema entry of a key, looked up by name in `resourceLBMonitorV1`. -/
def Key.schema (k : Key) : Option Schema :=
  resourceLBMonitorV1.Schema.lookup k.name

/-- A key is ForceNew when its schema entry says so. -/
def Key.forceNew (k : Key) : Bool :=
  match k.schema with
  | some s => s.ForceNew
  | none => false

/-! ## Resource data -/

/-- One value per schema key, typed as the schema types it (`TypeString` is `String`,
`TypeInt` is `Int`; the values are only stored and compared, never computed with). -/
structure Attrs where
  region : String
  tenant_id : String
  type : String
  delay : Int
  timeout : Int
  max_retries : Int
  url_path : String
  http_method : String
  expected_codes : String
  admin_state_up : String
  deriving DecidableEq, Repr

/-- A dynamically typed value, as handed to `d.Set`. -/
inductive Value where
  | str (s : String)
  | int (n : Int)
  deriving DecidableEq, Repr

/-- Modelled from the spec: the write behind `d.Set`. A value of the wrong type for the key is rejected by
`d.Set` with an error that the resource functions drop, so the attributes stay as they are. -/
def Attrs.put (a : Attrs) : Key → Value → Attrs
  | .region, .str v => { a with region := v }
  | .tenant_id, .str v => { a with tenant_id := v }
  | .type, .str v => { a with type := v }
  | .delay, .int v => { a with delay := v }
  | .timeout, .int v => { a with timeout := v }
  | .max_retries, .int v => { a with max_retries := v }
  | .url_path, .str v => { a with url_path := v }
  | .http_method, .str v => { a with http_method := v }
  | .expected_codes, .str v => { a with expected_codes := v }
  | .admin_state_up, .str v => { a with admin_state_up := v }
  | _, _ => a

/-- Modelled from the spec: `schema.ResourceData` of `helper/schema`, which the resource
functions use but which is outside the source file. The spec calls it the configuration
object with get and has-changed, holding the declared values, the previously applied state
and the resource identity.

* `id` is the resource identity (`d.Id()`, `d.SetId`); the empty string means absent.
* `state` holds the previously applied values (the old side of `d.HasChange`).
* `planned` holds the newly declared values (the new side of `d.HasChange`).
* `current` is what `d.Get` returns: the declared values overlaid with every `d.Set` so far;
  a resource data on which nothing was set has `current = planned`. -/
structure ResourceData where
  id : String
  state : Attrs
  planned : Attrs
  current : Attrs
  deriving DecidableEq, Repr

/-- A resource data as the framework hands it over: nothing set yet. -/
def ResourceData.fresh (id : String) (state planned : Attrs) : ResourceData :=
  { id := id, state := state, planned := planned, current := planned }

/-- Modelled from the spec: the call `d.Id()`, the resource identity. -/
def ResourceData.Id (d : ResourceData) : String := d.id

/-- Modelled from the spec: the call `d.SetId(v)`, which replaces the identity. -/
def ResourceData.SetId (d : ResourceData) (v : String) : ResourceData :=
  { d with id := v }

/-- Modelled from the spec: the call `d.Get(key).(T)`, the get of the configuration
object: the field `key` of the returned record, at the type the
schema gives the key. -/
def ResourceData.Get (d : ResourceData) : Attrs := d.current

/-- Modelled from the spec: the call `d.Set(key, value)`, writing local state: only what
`d.Get` returns changes. -/
def ResourceData.Set (d : ResourceData) (k : Key) (v : Value) : ResourceData :=
  { d with current := d.current.put k v }

/-- Modelled from the spec: the call `d.HasChange(key)`, the has-changed of the
configuration object: the applied and the declared value differ. Values written
with `d.Set` play no part. -/
def ResourceData.HasChange (d : ResourceData) : Key → Bool
  | .region => d.state.region != d.planned.region
  | .tenant_id => d.state.tenant_id != d.planned.tenant_id
  | .type => d.state.type != d.planned.type
  | .delay => d.state.delay != d.planned.delay
  | .timeout => d.state.timeout != d.planned.timeout
  | .max_retries => d.state.max_retries != d.planned.max_retries
  | .url_path => d.state.url_path != d.planned.url_path
  | .http_method => d.state.http_method != d.planned.http_method
  | .expected_codes => d.state.expected_codes != d.planned.expected_codes
  | .admin_state_up => d.state.admin_state_up != d.planned.admin_state_up

/-- Modelled from the spec: the second result of `d.GetOk(key)`: the key is set, that is,
its value is not the zero value of its type (the spec: unset means absent or empty). -/
def ResourceData.GetOk (d : ResourceData) : Key → Bool
  | .region => d.Get.region != ""
  | .tenant_id => d.Get.tenant_id != ""
  | .type => d.Get.type != ""
  | .delay => d.Get.delay != 0
  | .timeout => d.Get.timeout != 0
  | .max_retries => d.Get.max_retries != 0
  | .url_path => d.Get.url_path != ""
  | .http_method => d.Get.http_method != ""
  | .expected_codes => d.Get.expected_codes != ""
  | .admin_state_up => d.Get.admin_state_up != ""

/-! ## Go standard library -/

/-- Go `strconv.ParseBool`; `none` is the syntax error. -/
def ParseBool (str : String) : Option Bool :=
  match str with
  | "1" | "t" | "T" | "TRUE" | "true" | "True" => some true
  | "0" | "f" | "F" | "FALSE" | "false" | "False" => some false
  | _ => none

/-- Go `strconv.FormatBool`. -/
def FormatBool (b : Bool) : String :=
  if b then "true" else "false"

/-! ## Remote client -/

/-- The fields of `monitors.Monitor` that the resource reads. -/
structure Monitor where
  ID : String
  TenantID : String
  Typ : String
  Delay : Int
  Timeout : Int
  MaxRetries : Int
  URLPath : String
  HTTPMethod : String
  ExpectedCodes : String
  AdminStateUp : Bool
  deriving DecidableEq, Repr

/-- The fields of `monitors.CreateOpts` that `resourceLBMonitorV1Create` fills in;
`AdminStateUp` is a `*bool`. -/
structure CreateOpts where
  TenantID : String
  Typ : String
  Delay : Int
  Timeout : Int
  MaxRetries : Int
  URLPath : String
  ExpectedCodes : String
  HTTPMethod : String
  AdminStateUp : Option Bool := none
  deriving DecidableEq, Repr

/-- The fields of `monitors.UpdateOpts` that `resourceLBMonitorV1Update` fills in; the zero
value of the struct is the default of every field. -/
structure UpdateOpts where
  Delay : Int := 0
  Timeout : Int := 0
  MaxRetries : Int := 0
  URLPath : String := ""
  HTTPMethod : String := ""
  ExpectedCodes : String := ""
  AdminStateUp : Option Bool := none
  deriving DecidableEq, Repr

/-- An error of the remote client: the resource was not found, or anything else. -/
inductive RemoteError where
  | NotFound
  | Other (msg : String)
  deriving DecidableEq, Repr

/-- The text of a remote error, as `%s` prints it. -/
def RemoteError.Error : RemoteError → String
  | .NotFound => "Expected HTTP response code [204] but got 404 instead"
  | .Other msg => msg

/-- A request sent to the remote system. -/
inductive Call where
  | Create (opts : CreateOpts)
  | Get (id : String)
  | Update (id : String) (opts : UpdateOpts)
  | Delete (id : String)
  deriving DecidableEq, Repr

/-- The four operations of the `monitors` package on a networking client, over a remote
system in state `σ`. Each returns its result and the next remote state. -/
structure NetworkClient (σ : Type) where
  Create : CreateOpts → σ → Except RemoteError Monitor × σ
  Get : String → σ → Except RemoteError Monitor × σ
  Update : String → UpdateOpts → σ → Except RemoteError Monitor × σ
  Delete : String → σ → Option RemoteError × σ

/-- The provider configuration `meta.(*Config)`: `openstack.NewNetworkV2` applied to its
`osClient`, as a function of the region. -/
structure Config (σ : Type) where
  NewNetworkV2 : String → Except String (NetworkClient σ)

/-- What a resource function leaves behind: the returned `error`, the resource data, the
remote state and the requests sent, in order. -/
structure Run (σ : Type) where
  err : Option String
  d : ResourceData
  remote : σ
  calls : List Call
  deriving DecidableEq, Repr

/-! ## Resource functions -/

/-- Lines 86 to 104 of `resourceLBMonitorV1Create`: the create options, or the error
returned when `admin_state_up` does not parse. -/
def createOptsOf (d : ResourceData) : Except String CreateOpts :=
  let createOpts : CreateOpts :=
    { TenantID := d.Get.tenant_id
      Typ := d.Get.type
      Delay := d.Get.delay
      Timeout := d.Get.timeout
      MaxRetries := d.Get.max_retries
      URLPath := d.Get.url_path
      ExpectedCodes := d.Get.expected_codes
      HTTPMethod := d.Get.http_method }
  let asuRaw := d.Get.admin_state_up
  if asuRaw != "" then
    match ParseBool asuRaw with
    | none => .error "admin_state_up, if provided, must be either 'true' or 'false'"
    | some asu => .ok { createOpts with AdminStateUp := some asu }
  else
    .ok createOpts

/-- The function `resourceLBMonitorV1Read`. -/
def resourceLBMonitorV1Read {σ : Type} (d : ResourceData) (config : Config σ) (s : σ) :
    Run σ :=
  match config.NewNetworkV2 d.Get.region with
  | .error err =>
    ⟨some ("Error creating OpenStack networking client: " ++ err), d, s, []⟩
  | .ok networkingClient =>
    match networkingClient.Get d.Id s with
    | (.error err, s) =>
      ⟨some ("Error retrieving OpenStack LB Monitor: " ++ err.Error), d, s, [.Get d.Id]⟩
    | (.ok m, s) =>
      let calls := [Call.Get d.Id]
      let d := d.Set .type (.str m.Typ)
      let d := d.Set .delay (.int m.Delay)
      let d := d.Set .timeout (.int m.Timeout)
      let d := d.Set .max_retries (.int m.MaxRetries)
      let d :=
        if d.GetOk .tenant_id then
          if d.HasChange .tenant_id then d.Set .tenant_id (.str m.TenantID) else d
        else d.Set .tenant_id (.str "")
      let d :=
        if d.GetOk .url_path then
          if d.HasChange .url_path then d.Set .url_path (.str m.URLPath) else d
        else d.Set .url_path (.str "")
      let d :=
        if d.GetOk .http_method then
          if d.HasChange .http_method then d.Set .http_method (.str m.HTTPMethod) else d
        else d.Set .http_method (.str "")
      let d :=
        if d.GetOk .expected_codes then
          if d.HasChange .expected_codes then d.Set .expected_codes (.str m.ExpectedCodes)
          else d
        else d.Set .expected_codes (.str "")
      let d :=
        if d.GetOk .admin_state_up then
          if d.HasChange .admin_state_up then
            d.Set .admin_state_up (.str (FormatBool m.AdminStateUp))
          else d
        else d.Set .admin_state_up (.str "")
      ⟨none, d, s, calls⟩

/-- The function `resourceLBMonitorV1Create`. -/
def resourceLBMonitorV1Create {σ : Type} (d : ResourceData) (config : Config σ) (s : σ) :
    Run σ :=
  match config.NewNetworkV2 d.Get.region with
  | .error err =>
    ⟨some ("Error creating OpenStack networking client: " ++ err), d, s, []⟩
  | .ok networkingClient =>
    match createOptsOf d with
    | .error err => ⟨some err, d, s, []⟩
    | .ok createOpts =>
      match networkingClient.Create createOpts s with
      | (.error err, s) =>
        ⟨some ("Error creating OpenStack LB Monitor: " ++ err.Error), d, s,
          [.Create createOpts]⟩
      | (.ok m, s) =>
        let d := d.SetId m.ID
        let r := resourceLBMonitorV1Read d config s
        { r with calls := Call.Create createOpts :: r.calls }

/-- Lines 191 to 219 of `resourceLBMonitorV1Update`: the update options, or the error
returned when a changed `admin_state_up` does not parse. -/
def updateOptsOf (d : ResourceData) : Except String UpdateOpts :=
  let updateOpts : UpdateOpts := {}
  let updateOpts :=
    if d.HasChange .delay then { updateOpts with Delay := d.Get.delay } else updateOpts
  let updateOpts :=
    if d.HasChange .timeout then { updateOpts with Timeout := d.Get.timeout } else updateOpts
  let updateOpts :=
    if d.HasChange .max_retries then { updateOpts with MaxRetries := d.Get.max_retries }
    else updateOpts
  let updateOpts :=
    if d.HasChange .url_path then { updateOpts with URLPath := d.Get.url_path }
    else updateOpts
  let updateOpts :=
    if d.HasChange .http_method then { updateOpts with HTTPMethod := d.Get.http_method }
    else updateOpts
  let updateOpts :=
    if d.HasChange .expected_codes then
      { updateOpts with ExpectedCodes := d.Get.expected_codes }
    else updateOpts
  if d.HasChange .admin_state_up then
    let asuRaw := d.Get.admin_state_up
    if asuRaw != "" then
      match ParseBool asuRaw with
      | none => .error "admin_state_up, if provided, must be either 'true' or 'false'"
      | some asu => .ok { updateOpts with AdminStateUp := some asu }
    else .ok updateOpts
  else .ok updateOpts

/-- The function `resourceLBMonitorV1Update`. -/
def resourceLBMonitorV1Update {σ : Type} (d : ResourceData) (config : Config σ) (s : σ) :
    Run σ :=
  match config.NewNetworkV2 d.Get.region with
  | .error err =>
    ⟨some ("Error creating OpenStack networking client: " ++ err), d, s, []⟩
  | .ok networkingClient =>
    match updateOptsOf d with
    | .error err => ⟨some err, d, s, []⟩
    | .ok updateOpts =>
      match networkingClient.Update d.Id updateOpts s with
      | (.error err, s) =>
        ⟨some ("Error updating OpenStack LB Monitor: " ++ err.Error), d, s,
          [.Update d.Id updateOpts]⟩
      | (.ok _, s) =>
        let r := resourceLBMonitorV1Read d config s
        { r with calls := Call.Update d.Id updateOpts :: r.calls }

/-- The function `resourceLBMonitorV1Delete`. -/
def resourceLBMonitorV1Delete {σ : Type} (d : ResourceData) (config : Config σ) (s : σ) :
    Run σ :=
  match config.NewNetworkV2 d.Get.region with
  | .error err =>
    ⟨some ("Error creating OpenStack networking client: " ++ err), d, s, []⟩
  | .ok networkingClient =>
    match networkingClient.Delete d.Id s with
    | (some err, s) =>
      ⟨some ("Error deleting OpenStack LB Monitor: " ++ err.Error), d, s, [.Delete d.Id]⟩
    | (none, s) =>
      ⟨none, d.SetId "", s, [.Delete d.Id]⟩

/-! ## Observations on payloads -/

/-- The update payload carries a value for a key: a non-zero int, a non-empty string or a
non-nil bool pointer. `monitors.UpdateOpts` has no field for `region`, `tenant_id` and
`type`. -/
def UpdateOpts.carries (o : UpdateOpts) : Key → Bool
  | .region => false
  | .tenant_id => false
  | .type => false
  | .delay => o.Delay != 0
  | .timeout => o.Timeout != 0
  | .max_retries => o.MaxRetries != 0
  | .url_path => o.URLPath != ""
  | .http_method => o.HTTPMethod != ""
  | .expected_codes => o.ExpectedCodes != ""
  | .admin_state_up => o.AdminStateUp.isSome

/-! ## Concrete inputs -/

/-- A declared HTTP monitor with `url_path` set and `admin_state_up` unset. -/
def declaredHTTP : Attrs :=
  { region := "RegionOne", tenant_id := "", type := "HTTP", delay := 10, timeout := 5,
    max_retries := 3, url_path := "/", http_method := "", expected_codes := "",
    admin_state_up := "" }

/-- The remote snapshot of monitor `m-1`, with server defaults filled in. -/
def snapshotM1 : Monitor :=
  { ID := "m-1", TenantID := "t-9", Typ := "HTTP", Delay := 10, Timeout := 5,
    MaxRetries := 3, URLPath := "/health", HTTPMethod := "GET", ExpectedCodes := "200",
    AdminStateUp := true }

/-- A client over a remote system without state that answers every request with a fixed
result. -/
def fixedClient (create get update : Except RemoteError Monitor)
    (delete : Option RemoteError) : NetworkClient Unit :=
  { Create := fun _ s => (create, s)
    Get := fun _ s => (get, s)
    Update := fun _ _ s => (update, s)
    Delete := fun _ s => (delete, s) }

/-- A configuration whose networking client is `c` in every region. -/
def fixedConfig {σ : Type} (c : NetworkClient σ) : Config σ :=
  { NewNetworkV2 := fun _ => .ok c }

/-- A client for which every request succeeds with `snapshotM1`. -/
def healthyClient : NetworkClient Unit :=
  fixedClient (.ok snapshotM1) (.ok snapshotM1) (.ok snapshotM1) none

/-- The declared HTTP monitor with `admin_state_up` set to a string that is no boolean. -/
def declaredMaybe : Attrs :=
  { declaredHTTP with admin_state_up := "maybe" }

/-- The declared HTTP monitor with `url_path` removed. -/
def declaredNoPath : Attrs :=
  { declaredHTTP with url_path := "" }

/-- The declared HTTP monitor with `delay` raised to 20. -/
def declaredDelay20 : Attrs :=
  { declaredHTTP with delay := 20 }

/-- A client whose Delete reports that the monitor does not exist. -/
def goneClient : NetworkClient Unit :=
  fixedClient (.ok snapshotM1) (.error .NotFound) (.error .NotFound) (some .NotFound)

/-- A client whose Create succeeds with `snapshotM1` and whose Get fails. -/
def createOnlyClient : NetworkClient Unit :=
  fixedClient (.ok snapshotM1) (.error (.Other "connection reset")) (.ok snapshotM1) none

/-- A client whose Create fails. -/
def refusingClient : NetworkClient Unit :=
  fixedClient (.error (.Other "quota exceeded")) (.ok snapshotM1) (.ok snapshotM1) none

/-- A remote system that stores one monitor: Create and Update overwrite the stored
monitor from the options they are given, Get returns it, Delete leaves it. The answer of
Update is the fixed monitor `answer`, whatever is stored. -/
def storeClient (answer : Monitor) : NetworkClient Monitor :=
  { Create := fun o _ =>
      let m : Monitor :=
        { ID := "m-1", TenantID := o.TenantID, Typ := o.Typ, Delay := o.Delay,
          Timeout := o.Timeout, MaxRetries := o.MaxRetries, URLPath := o.URLPath,
          HTTPMethod := o.HTTPMethod, ExpectedCodes := o.ExpectedCodes,
          AdminStateUp := o.AdminStateUp.getD true }
      (.ok m, m)
    Get := fun _ m => (.ok m, m)
    Update := fun _ o m =>
      let m1 : Monitor :=
        { m with
          Delay := if o.Delay != 0 then o.Delay else m.Delay
          Timeout := if o.Timeout != 0 then o.Timeout else m.Timeout
          MaxRetries := if o.MaxRetries != 0 then o.MaxRetries else m.MaxRetries
          URLPath := if o.URLPath != "" then o.URLPath else m.URLPath
          HTTPMethod := if o.HTTPMethod != "" then o.HTTPMethod else m.HTTPMethod
          ExpectedCodes := if o.ExpectedCodes != "" then o.ExpectedCodes else m.ExpectedCodes
          AdminStateUp := o.AdminStateUp.getD m.AdminStateUp }
      (.ok answer, m1)
    Delete := fun _ m => (none, m) }

/-- No attribute set: the applied state before the resource is created. -/
def noAttrs : Attrs :=
  { region := "", tenant_id := "", type := "", delay := 0, timeout := 0, max_retries := 0,
    url_path := "", http_method := "", expected_codes := "", admin_state_up := "" }

/-- A snapshot that differs from `snapshotM1` in every field but the ID. -/
def snapshotStale : Monitor :=
  { ID := "m-1", TenantID := "t-0", Typ := "PING", Delay := 1, Timeout := 1,
    MaxRetries := 1, URLPath := "/stale", HTTPMethod := "HEAD", ExpectedCodes := "500",
    AdminStateUp := false }

/-- A declared HTTP monitor with every HTTP attribute given (url_path, http_method and
expected_codes) and a delay that is not below the timeout. -/
def declaredFull : Attrs :=
  { region := "RegionOne", tenant_id := "", type := "HTTP", delay := 10, timeout := 5,
    max_retries := 3, url_path := "/", http_method := "GET", expected_codes := "200",
    admin_state_up := "" }

/-- The declared HTTP monitor with `admin_state_up` set to `true`. -/
def declaredAdminUp : Attrs :=
  { declaredHTTP with admin_state_up := "true" }

/-! ## Characterisations used in the proofs -/

/-- One optional-field block of `resourceLBMonitorV1Read` (the source repeats it for
tenant_id, url_path, http_method, expected_codes and admin_state_up). -/
def mergeOptional (d : ResourceData) (k : Key) (remote : String) : ResourceData :=
  if d.GetOk k then
    if d.HasChange k then d.Set k (.str remote) else d
  else d.Set k (.str "")

/-- The resource data that a read leaves behind when its Get returns `m`, field by field
(`read_ok` proves that this is what `resourceLBMonitorV1Read` computes). -/
def readResult (d : ResourceData) (m : Monitor) : ResourceData :=
  { d with
    current :=
      { region := d.Get.region
        tenant_id :=
          if d.Get.tenant_id = "" then ""
          else if d.HasChange .tenant_id then m.TenantID else d.Get.tenant_id
        type := m.Typ
        delay := m.Delay
        timeout := m.Timeout
        max_retries := m.MaxRetries
        url_path :=
          if d.Get.url_path = "" then ""
          else if d.HasChange .url_path then m.URLPath else d.Get.url_path
        http_method :=
          if d.Get.http_method = "" then ""
          else if d.HasChange .http_method then m.HTTPMethod else d.Get.http_method
        expected_codes :=
          if d.Get.expected_codes = "" then ""
          else if d.HasChange .expected_codes then m.ExpectedCodes
          else d.Get.expected_codes
        admin_state_up :=
          if d.Get.admin_state_up = "" then ""
          else if d.HasChange .admin_state_up then FormatBool m.AdminStateUp
          else d.Get.admin_state_up } }

end LBMonitorV1

namespace LBMonitorV1

/-! ## Helper lemmas -/

/-- The tenant_id block of a read rewrites only the tenant_id value. -/
theorem mergeOptional_tenant_id (id : String) (st pl : Attrs) (a1 a2 a3 : String)
    (a4 a5 a6 : Int) (a7 a8 a9 a10 r : String) :
    mergeOptional ⟨id, st, pl, ⟨a1, a2, a3, a4, a5, a6, a7, a8, a9, a10⟩⟩ .tenant_id r =
      ⟨id, st, pl, ⟨a1, (if a2 = "" then "" else if st.tenant_id != pl.tenant_id then r else a2), a3, a4, a5,
        a6, a7, a8, a9, a10⟩⟩ := by
  simp only [mergeOptional, ResourceData.GetOk, ResourceData.HasChange, ResourceData.Get,
    ResourceData.Set, Attrs.put]
  by_cases h : a2 = "" <;> by_cases hc : (st.tenant_id != pl.tenant_id) = true <;> simp [h, hc]

/-- The url_path block of a read rewrites only the url_path value. -/
theorem mergeOptional_url_path (id : String) (st pl : Attrs) (a1 a2 a3 : String)
    (a4 a5 a6 : Int) (a7 a8 a9 a10 r : String) :
    mergeOptional ⟨id, st, pl, ⟨a1, a2, a3, a4, a5, a6, a7, a8, a9, a10⟩⟩ .url_path r =
      ⟨id, st, pl, ⟨a1, a2, a3, a4, a5,
        a6, (if a7 = "" then "" else if st.url_path != pl.url_path then r else a7), a8, a9, a10⟩⟩ := by
  simp only [mergeOptional, ResourceData.GetOk, ResourceData.HasChange, ResourceData.Get,
    ResourceData.Set, Attrs.put]
  by_cases h : a7 = "" <;> by_cases hc : (st.url_path != pl.url_path) = true <;> simp [h, hc]

/-- The http_method block of a read rewrites only the http_method value. -/
theorem mergeOptional_http_method (id : String) (st pl : Attrs) (a1 a2 a3 : String)
    (a4 a5 a6 : Int) (a7 a8 a9 a10 r : String) :
    mergeOptional ⟨id, st, pl, ⟨a1, a2, a3, a4, a5, a6, a7, a8, a9, a10⟩⟩ .http_method r =
      ⟨id, st, pl, ⟨a1, a2, a3, a4, a5,
        a6, a7, (if a8 = "" then "" else if st.http_method != pl.http_method then r else a8), a9, a10⟩⟩ := by
  simp only [mergeOptional, ResourceData.GetOk, ResourceData.HasChange, ResourceData.Get,
    ResourceData.Set, Attrs.put]
  by_cases h : a8 = "" <;> by_cases hc : (st.http_method != pl.http_method) = true <;> simp [h, hc]

/-- The expected_codes block of a read rewrites only the expected_codes value. -/
theorem mergeOptional_expected_codes (id : String) (st pl : Attrs) (a1 a2 a3 : String)
    (a4 a5 a6 : Int) (a7 a8 a9 a10 r : String) :
    mergeOptional ⟨id, st, pl, ⟨a1, a2, a3, a4, a5, a6, a7, a8, a9, a10⟩⟩ .expected_codes r =
      ⟨id, st, pl, ⟨a1, a2, a3, a4, a5,
        a6, a7, a8, (if a9 = "" then "" else if st.expected_codes != pl.expected_codes then r else a9), a10⟩⟩ := by
  simp only [mergeOptional, ResourceData.GetOk, ResourceData.HasChange, ResourceData.Get,
    ResourceData.Set, Attrs.put]
  by_cases h : a9 = "" <;> by_cases hc : (st.expected_codes != pl.expected_codes) = true <;> simp [h, hc]

/-- The admin_state_up block of a read rewrites only the admin_state_up value. -/
theorem mergeOptional_admin_state_up (id : String) (st pl : Attrs) (a1 a2 a3 : String)
    (a4 a5 a6 : Int) (a7 a8 a9 a10 r : String) :
    mergeOptional ⟨id, st, pl, ⟨a1, a2, a3, a4, a5, a6, a7, a8, a9, a10⟩⟩ .admin_state_up r =
      ⟨id, st, pl, ⟨a1, a2, a3, a4, a5,
        a6, a7, a8, a9, (if a10 = "" then "" else if st.admin_state_up != pl.admin_state_up then r else a10)⟩⟩ := by
  simp only [mergeOptional, ResourceData.GetOk, ResourceData.HasChange, ResourceData.Get,
    ResourceData.Set, Attrs.put]
  by_cases h : a10 = "" <;> by_cases hc : (st.admin_state_up != pl.admin_state_up) = true <;> simp [h, hc]

/-- A read whose Get succeeds with `m` returns no error, leaves `readResult d m` and has
sent exactly the Get request. -/
theorem read_ok {σ : Type} (d : ResourceData) (config : Config σ) (client : NetworkClient σ)
    (s s1 : σ) (m : Monitor) (hclient : config.NewNetworkV2 d.Get.region = .ok client)
    (hget : client.Get d.Id s = (.ok m, s1)) :
    resourceLBMonitorV1Read d config s = ⟨none, readResult d m, s1, [.Get d.Id]⟩ := by
  have hshape : resourceLBMonitorV1Read d config s =
      ⟨none,
        mergeOptional (mergeOptional (mergeOptional (mergeOptional (mergeOptional
          ((((d.Set .type (.str m.Typ)).Set .delay (.int m.Delay)).Set .timeout
            (.int m.Timeout)).Set .max_retries (.int m.MaxRetries))
          .tenant_id m.TenantID) .url_path m.URLPath) .http_method m.HTTPMethod)
          .expected_codes m.ExpectedCodes) .admin_state_up (FormatBool m.AdminStateUp),
        s1, [.Get d.Id]⟩ := by
    unfold resourceLBMonitorV1Read
    rw [hclient]
    simp only [hget]
    rfl
  rw [hshape]
  obtain ⟨id, st, pl, cur⟩ := d
  obtain ⟨a1, a2, a3, a4, a5, a6, a7, a8, a9, a10⟩ := cur
  simp only [ResourceData.Set, Attrs.put]
  rw [mergeOptional_tenant_id, mergeOptional_url_path, mergeOptional_http_method,
    mergeOptional_expected_codes, mergeOptional_admin_state_up]
  rfl

/-- A read whose Get fails returns the wrapped error and leaves the resource data alone. -/
theorem read_get_error {σ : Type} (d : ResourceData) (config : Config σ)
    (client : NetworkClient σ) (s s1 : σ) (e : RemoteError)
    (hclient : config.NewNetworkV2 d.Get.region = .ok client)
    (hget : client.Get d.Id s = (.error e, s1)) :
    resourceLBMonitorV1Read d config s =
      ⟨some ("Error retrieving OpenStack LB Monitor: " ++ e.Error), d, s1, [.Get d.Id]⟩ := by
  unfold resourceLBMonitorV1Read
  rw [hclient]
  simp only [hget]

/-- A read that returns no error obtained a client and a snapshot. -/
theorem read_err_none {σ : Type} (d : ResourceData) (config : Config σ) (s : σ)
    (h : (resourceLBMonitorV1Read d config s).err = none) :
    ∃ (client : NetworkClient σ) (m : Monitor) (s1 : σ),
      config.NewNetworkV2 d.Get.region = .ok client ∧ client.Get d.Id s = (.ok m, s1) := by
  cases hn : config.NewNetworkV2 d.Get.region with
  | error e =>
    unfold resourceLBMonitorV1Read at h
    rw [hn] at h
    simp at h
  | ok client =>
    rcases hg : client.Get d.Id s with ⟨r, s1⟩
    cases r with
    | error e =>
      rw [read_get_error d config client s s1 e hn hg] at h
      simp at h
    | ok m => exact ⟨client, m, s1, rfl, hg⟩

/-- A read sends nothing or exactly one Get request. -/
theorem read_calls {σ : Type} (d : ResourceData) (config : Config σ) (s : σ) :
    (resourceLBMonitorV1Read d config s).calls = [] ∨
      (resourceLBMonitorV1Read d config s).calls = [.Get d.Id] := by
  cases hn : config.NewNetworkV2 d.Get.region with
  | error e =>
    left
    unfold resourceLBMonitorV1Read
    rw [hn]
  | ok client =>
    right
    rcases hg : client.Get d.Id s with ⟨r, s1⟩
    cases r with
    | error e => rw [read_get_error d config client s s1 e hn hg]
    | ok m => rw [read_ok d config client s s1 m hn hg]

/-- The fields of the update options, once they are built. -/
theorem updateOptsOf_fields (d : ResourceData) (opts : UpdateOpts)
    (h : updateOptsOf d = .ok opts) :
    opts.Delay = (if d.HasChange .delay then d.Get.delay else 0) ∧
    opts.Timeout = (if d.HasChange .timeout then d.Get.timeout else 0) ∧
    opts.MaxRetries = (if d.HasChange .max_retries then d.Get.max_retries else 0) ∧
    opts.URLPath = (if d.HasChange .url_path then d.Get.url_path else "") ∧
    opts.HTTPMethod = (if d.HasChange .http_method then d.Get.http_method else "") ∧
    opts.ExpectedCodes =
      (if d.HasChange .expected_codes then d.Get.expected_codes else "") ∧
    opts.AdminStateUp.isSome =
      (d.HasChange .admin_state_up && d.Get.admin_state_up != "") := by
  unfold updateOptsOf at h
  simp only [] at h
  by_cases c7 : d.HasChange .admin_state_up = true
  · by_cases c8 : d.Get.admin_state_up = ""
    · simp [c7, c8] at h
      subst h
      simp [c7, c8, apply_ite UpdateOpts.Delay, apply_ite UpdateOpts.Timeout,
        apply_ite UpdateOpts.MaxRetries, apply_ite UpdateOpts.URLPath,
        apply_ite UpdateOpts.HTTPMethod, apply_ite UpdateOpts.ExpectedCodes,
        apply_ite UpdateOpts.AdminStateUp]
    · cases hp : ParseBool d.Get.admin_state_up with
      | none => simp [c7, c8, hp] at h
      | some b =>
        simp [c7, c8, hp] at h
        subst h
        simp [c7, c8, apply_ite UpdateOpts.Delay, apply_ite UpdateOpts.Timeout,
          apply_ite UpdateOpts.MaxRetries, apply_ite UpdateOpts.URLPath,
          apply_ite UpdateOpts.HTTPMethod, apply_ite UpdateOpts.ExpectedCodes,
          apply_ite UpdateOpts.AdminStateUp]
  · simp [c7] at h
    subst h
    simp [c7, apply_ite UpdateOpts.Delay, apply_ite UpdateOpts.Timeout,
      apply_ite UpdateOpts.MaxRetries, apply_ite UpdateOpts.URLPath,
      apply_ite UpdateOpts.HTTPMethod, apply_ite UpdateOpts.ExpectedCodes,
      apply_ite UpdateOpts.AdminStateUp]

/-- An update whose options are built and whose Update request succeeds is that request
followed by a read of the unchanged resource data. -/
theorem update_ok {σ : Type} (d : ResourceData) (config : Config σ)
    (client : NetworkClient σ) (s s1 : σ) (opts : UpdateOpts) (m : Monitor)
    (hclient : config.NewNetworkV2 d.Get.region = .ok client)
    (hopts : updateOptsOf d = .ok opts)
    (hupd : client.Update d.Id opts s = (.ok m, s1)) :
    resourceLBMonitorV1Update d config s =
      { resourceLBMonitorV1Read d config s1 with
        calls := .Update d.Id opts :: (resourceLBMonitorV1Read d config s1).calls } := by
  unfold resourceLBMonitorV1Update
  rw [hclient]
  simp only [hopts, hupd]

/-- An update whose Update request fails returns the wrapped error after that one request. -/
theorem update_error {σ : Type} (d : ResourceData) (config : Config σ)
    (client : NetworkClient σ) (s s1 : σ) (opts : UpdateOpts) (e : RemoteError)
    (hclient : config.NewNetworkV2 d.Get.region = .ok client)
    (hopts : updateOptsOf d = .ok opts)
    (hupd : client.Update d.Id opts s = (.error e, s1)) :
    resourceLBMonitorV1Update d config s =
      ⟨some ("Error updating OpenStack LB Monitor: " ++ e.Error), d, s1,
        [.Update d.Id opts]⟩ := by
  unfold resourceLBMonitorV1Update
  rw [hclient]
  simp only [hopts, hupd]

/-- A read depends on the configuration only through the Get of the client it yields. -/
theorem read_congr {σ : Type} (d : ResourceData) (config config2 : Config σ)
    (client client2 : NetworkClient σ) (s : σ)
    (h1 : config.NewNetworkV2 d.Get.region = .ok client)
    (h2 : config2.NewNetworkV2 d.Get.region = .ok client2)
    (hg : client2.Get = client.Get) :
    resourceLBMonitorV1Read d config2 s = resourceLBMonitorV1Read d config s := by
  rcases hr : client.Get d.Id s with ⟨r, s1⟩
  have hr2 : client2.Get d.Id s = (r, s1) := by rw [hg]; exact hr
  cases r with
  | error e =>
    rw [read_get_error d config client s s1 e h1 hr,
      read_get_error d config2 client2 s s1 e h2 hr2]
  | ok m =>
    rw [read_ok d config client s s1 m h1 hr, read_ok d config2 client2 s s1 m h2 hr2]

/-- The `AdminStateUp` of the update options, once they are built. -/
theorem updateOptsOf_adminStateUp (d : ResourceData) (opts : UpdateOpts)
    (h : updateOptsOf d = .ok opts) :
    opts.AdminStateUp =
      (if (d.HasChange .admin_state_up && d.Get.admin_state_up != "") = true then
        ParseBool d.Get.admin_state_up
      else none) := by
  unfold updateOptsOf at h
  simp only [] at h
  by_cases c7 : d.HasChange .admin_state_up = true
  · by_cases c8 : d.Get.admin_state_up = ""
    · simp [c7, c8] at h
      subst h
      simp [c8, apply_ite UpdateOpts.AdminStateUp]
    · cases hp : ParseBool d.Get.admin_state_up with
      | none => simp [c7, c8, hp] at h
      | some b =>
        simp [c7, c8, hp] at h
        subst h
        simp [c7, c8]
  · simp [c7] at h
    subst h
    simp [c7, apply_ite UpdateOpts.AdminStateUp]

/-- The update options are built when `admin_state_up` is unchanged, empty or a boolean
literal. -/
theorem updateOptsOf_built (d : ResourceData)
    (hvalid : d.HasChange .admin_state_up = false ∨ d.Get.admin_state_up = "" ∨
      ∃ b : Bool, ParseBool d.Get.admin_state_up = some b) :
    ∃ opts : UpdateOpts, updateOptsOf d = .ok opts := by
  unfold updateOptsOf
  simp only []
  by_cases c7 : d.HasChange .admin_state_up = true
  · by_cases c8 : d.Get.admin_state_up = ""
    · simp [c7, c8]
    · rcases hvalid with h | h | ⟨b, hb⟩
      · rw [h] at c7
        exact absurd c7 (by decide)
      · exact absurd h c8
      · simp [c7, c8, hb]
  · simp [c7]

/-! ## Schema -/

/-- C10: the schema of `resourceLBMonitorV1` has exactly the ten keys region, tenant_id,
type, delay, timeout, max_retries, url_path, http_method, expected_codes and admin_state_up,
each once, with the stated type, Required/Optional marker and ForceNew marker; the ForceNew
keys are exactly region, tenant_id and type. -/
theorem schema_fields_and_classification :
    resourceLBMonitorV1.Schema.map
        (fun e => (e.1, e.2.Typ, e.2.Required, e.2.Optional, e.2.ForceNew)) =
      [("region", .TypeString, true, false, true),
       ("tenant_id", .TypeString, false, true, true),
       ("type", .TypeString, true, false, true),
       ("delay", .TypeInt, true, false, false),
       ("timeout", .TypeInt, true, false, false),
       ("max_retries", .TypeInt, true, false, false),
       ("url_path", .TypeString, false, true, false),
       ("http_method", .TypeString, false, true, false),
       ("expected_codes", .TypeString, false, true, false),
       ("admin_state_up", .TypeString, false, true, false)] ∧
    (resourceLBMonitorV1.Schema.map Prod.fst).Nodup ∧
    (resourceLBMonitorV1.Schema.filter (fun e => e.2.ForceNew)).map Prod.fst =
      ["region", "tenant_id", "type"] ∧
    (∀ k : Key, k.forceNew = true ↔ k = .region ∨ k = .tenant_id ∨ k = .type) := by
  refine ⟨by decide, by decide, by decide, ?_⟩
  intro k
  cases k <;> decide

/-! ## Create -/

/-- C5: when `admin_state_up` is the empty string, `true` or `false`, the create options are
built, copy tenant_id, type, delay, timeout, max_retries, url_path, expected_codes and
http_method from the declared values, and have `AdminStateUp` nil, true and false
respectively; once the networking client is obtained, the first request sent by
`resourceLBMonitorV1Create` is the Create request with exactly these options. -/
theorem create_payload_copies_declared_values (d : ResourceData)
    (h : d.Get.admin_state_up = "" ∨ d.Get.admin_state_up = "true" ∨
      d.Get.admin_state_up = "false") :
    ∃ opts : CreateOpts,
      createOptsOf d = .ok opts ∧
      opts.TenantID = d.Get.tenant_id ∧ opts.Typ = d.Get.type ∧
      opts.Delay = d.Get.delay ∧ opts.Timeout = d.Get.timeout ∧
      opts.MaxRetries = d.Get.max_retries ∧ opts.URLPath = d.Get.url_path ∧
      opts.ExpectedCodes = d.Get.expected_codes ∧ opts.HTTPMethod = d.Get.http_method ∧
      (d.Get.admin_state_up = "" → opts.AdminStateUp = none) ∧
      (d.Get.admin_state_up = "true" → opts.AdminStateUp = some true) ∧
      (d.Get.admin_state_up = "false" → opts.AdminStateUp = some false) ∧
      ∀ (σ : Type) (config : Config σ) (client : NetworkClient σ) (s : σ),
        config.NewNetworkV2 d.Get.region = .ok client →
        (resourceLBMonitorV1Create d config s).calls.head? = some (.Create opts) := by
  have hcalls : ∀ opts : CreateOpts, createOptsOf d = .ok opts →
      ∀ (σ : Type) (config : Config σ) (client : NetworkClient σ) (s : σ),
        config.NewNetworkV2 d.Get.region = .ok client →
        (resourceLBMonitorV1Create d config s).calls.head? = some (.Create opts) := by
    intro opts hopts σ config client s hc
    unfold resourceLBMonitorV1Create
    rw [hc]
    simp only [hopts]
    rcases hr : client.Create opts s with ⟨r, s1⟩
    cases r <;> simp
  rcases h with h | h | h
  · have hopts : createOptsOf d = .ok
        { TenantID := d.Get.tenant_id, Typ := d.Get.type, Delay := d.Get.delay,
          Timeout := d.Get.timeout, MaxRetries := d.Get.max_retries,
          URLPath := d.Get.url_path, ExpectedCodes := d.Get.expected_codes,
          HTTPMethod := d.Get.http_method, AdminStateUp := none } := by
      simp [createOptsOf, h]
    exact ⟨_, hopts, rfl, rfl, rfl, rfl, rfl, rfl, rfl, rfl, by simp, by simp [h], by simp [h],
      hcalls _ hopts⟩
  · have hopts : createOptsOf d = .ok
        { TenantID := d.Get.tenant_id, Typ := d.Get.type, Delay := d.Get.delay,
          Timeout := d.Get.timeout, MaxRetries := d.Get.max_retries,
          URLPath := d.Get.url_path, ExpectedCodes := d.Get.expected_codes,
          HTTPMethod := d.Get.http_method, AdminStateUp := some true } := by
      simp [createOptsOf, h, ParseBool]
    exact ⟨_, hopts, rfl, rfl, rfl, rfl, rfl, rfl, rfl, rfl, by simp [h], by simp,
      by simp [h], hcalls _ hopts⟩
  · have hopts : createOptsOf d = .ok
        { TenantID := d.Get.tenant_id, Typ := d.Get.type, Delay := d.Get.delay,
          Timeout := d.Get.timeout, MaxRetries := d.Get.max_retries,
          URLPath := d.Get.url_path, ExpectedCodes := d.Get.expected_codes,
          HTTPMethod := d.Get.http_method, AdminStateUp := some false } := by
      simp [createOptsOf, h, ParseBool]
    exact ⟨_, hopts, rfl, rfl, rfl, rfl, rfl, rfl, rfl, rfl, by simp [h], by simp [h],
      by simp, hcalls _ hopts⟩

/-- Witness for C5: the declared HTTP monitor with `admin_state_up` unset. -/
theorem create_payload_copies_declared_values_witness :
    ∃ opts : CreateOpts,
      createOptsOf (ResourceData.fresh "" declaredHTTP declaredHTTP) = .ok opts ∧
      opts.URLPath = "/" ∧ opts.AdminStateUp = none := by
  obtain ⟨opts, hopts, _, _, _, _, _, hurl, _, _, hasu, _⟩ :=
    create_payload_copies_declared_values (ResourceData.fresh "" declaredHTTP declaredHTTP)
      (Or.inl rfl)
  exact ⟨opts, hopts, hurl, hasu rfl⟩

/-- C4: when `admin_state_up` is a non-empty string that `strconv.ParseBool` rejects,
`resourceLBMonitorV1Create` returns an error, and so does `resourceLBMonitorV1Update`
whenever `admin_state_up` has changed; in both cases no request is sent, and the resource
data (identity and all fields) and the remote state are left as they were. -/
theorem invalid_admin_state_up_rejected {σ : Type} (d : ResourceData) (config : Config σ)
    (s : σ) (hne : d.Get.admin_state_up ≠ "")
    (hbad : ParseBool d.Get.admin_state_up = none) :
    ((resourceLBMonitorV1Create d config s).err ≠ none ∧
      (resourceLBMonitorV1Create d config s).calls = [] ∧
      (resourceLBMonitorV1Create d config s).d = d ∧
      (resourceLBMonitorV1Create d config s).remote = s) ∧
    (d.HasChange .admin_state_up = true →
      (resourceLBMonitorV1Update d config s).err ≠ none ∧
      (resourceLBMonitorV1Update d config s).calls = [] ∧
      (resourceLBMonitorV1Update d config s).d = d ∧
      (resourceLBMonitorV1Update d config s).remote = s) := by
  have hc : createOptsOf d =
      .error "admin_state_up, if provided, must be either 'true' or 'false'" := by
    simp [createOptsOf, hne, hbad]
  refine ⟨?_, ?_⟩
  · unfold resourceLBMonitorV1Create
    cases hn : config.NewNetworkV2 d.Get.region with
    | error e => simp
    | ok client => simp [hc]
  · intro hch
    have hu : updateOptsOf d =
        .error "admin_state_up, if provided, must be either 'true' or 'false'" := by
      simp [updateOptsOf, hch, hne, hbad]
    unfold resourceLBMonitorV1Update
    cases hn : config.NewNetworkV2 d.Get.region with
    | error e => simp
    | ok client => simp [hu]

/-- Witness for C4: `admin_state_up = "maybe"`, on create and on update. -/
theorem invalid_admin_state_up_rejected_witness :
    (resourceLBMonitorV1Create (ResourceData.fresh "" declaredHTTP declaredMaybe)
        (fixedConfig healthyClient) ()).err ≠ none ∧
    (resourceLBMonitorV1Create (ResourceData.fresh "" declaredHTTP declaredMaybe)
        (fixedConfig healthyClient) ()).calls = [] ∧
    (resourceLBMonitorV1Update (ResourceData.fresh "m-1" declaredHTTP declaredMaybe)
        (fixedConfig healthyClient) ()).err ≠ none ∧
    (resourceLBMonitorV1Update (ResourceData.fresh "m-1" declaredHTTP declaredMaybe)
        (fixedConfig healthyClient) ()).calls = [] :=
  ⟨(invalid_admin_state_up_rejected (ResourceData.fresh "" declaredHTTP declaredMaybe)
      (fixedConfig healthyClient) () (by decide) (by decide)).1.1,
   (invalid_admin_state_up_rejected (ResourceData.fresh "" declaredHTTP declaredMaybe)
      (fixedConfig healthyClient) () (by decide) (by decide)).1.2.1,
   ((invalid_admin_state_up_rejected (ResourceData.fresh "m-1" declaredHTTP declaredMaybe)
      (fixedConfig healthyClient) () (by decide) (by decide)).2 (by decide)).1,
   ((invalid_admin_state_up_rejected (ResourceData.fresh "m-1" declaredHTTP declaredMaybe)
      (fixedConfig healthyClient) () (by decide) (by decide)).2 (by decide)).2.1⟩

/-! ## Delete -/

/-- C3 fails as stated: with identity `m-1` and a remote Delete that reports NotFound,
`resourceLBMonitorV1Delete` returns an error and the identity is still `m-1`. -/
theorem delete_not_found_counterexample :
    (ResourceData.fresh "m-1" declaredHTTP declaredHTTP).Id ≠ "" ∧
    (goneClient.Delete (ResourceData.fresh "m-1" declaredHTTP declaredHTTP).Id ()).1 =
      some .NotFound ∧
    (resourceLBMonitorV1Delete (ResourceData.fresh "m-1" declaredHTTP declaredHTTP)
        (fixedConfig goneClient) ()).err =
      some ("Error deleting OpenStack LB Monitor: " ++ RemoteError.NotFound.Error) ∧
    (resourceLBMonitorV1Delete (ResourceData.fresh "m-1" declaredHTTP declaredHTTP)
        (fixedConfig goneClient) ()).d.Id = "m-1" := by
  refine ⟨by decide, rfl, rfl, rfl⟩

/-- C3, amended: once the networking client is obtained, a remote Delete that reports an
error (NotFound included) makes `resourceLBMonitorV1Delete` return an error that wraps it
and leave the resource data, identity included, as it was; a remote Delete that succeeds
makes it return no error and set the identity to the empty string. Either way exactly one
Delete request is sent, for the identity. -/
theorem delete_clears_identity_only_on_success {σ : Type} (d : ResourceData)
    (config : Config σ) (client : NetworkClient σ) (s : σ)
    (hclient : config.NewNetworkV2 d.Get.region = .ok client) :
    (∀ (e : RemoteError) (s1 : σ), client.Delete d.Id s = (some e, s1) →
      resourceLBMonitorV1Delete d config s =
        ⟨some ("Error deleting OpenStack LB Monitor: " ++ e.Error), d, s1, [.Delete d.Id]⟩) ∧
    (∀ s1 : σ, client.Delete d.Id s = (none, s1) →
      resourceLBMonitorV1Delete d config s = ⟨none, d.SetId "", s1, [.Delete d.Id]⟩ ∧
      (resourceLBMonitorV1Delete d config s).d.Id = "") := by
  refine ⟨?_, ?_⟩
  · intro e s1 h
    simp [resourceLBMonitorV1Delete, hclient, h]
  · intro s1 h
    simp [resourceLBMonitorV1Delete, hclient, h]
    rfl

/-- Witness for C3, amended: NotFound keeps the identity, success clears it. -/
theorem delete_clears_identity_only_on_success_witness :
    (resourceLBMonitorV1Delete (ResourceData.fresh "m-1" declaredHTTP declaredHTTP)
        (fixedConfig goneClient) ()).d.Id = "m-1" ∧
    (resourceLBMonitorV1Delete (ResourceData.fresh "m-1" declaredHTTP declaredHTTP)
        (fixedConfig healthyClient) ()).d.Id = "" := by
  have h1 := (delete_clears_identity_only_on_success
    (ResourceData.fresh "m-1" declaredHTTP declaredHTTP) (fixedConfig goneClient) goneClient ()
    rfl).1 .NotFound () rfl
  have h2 := (delete_clears_identity_only_on_success
    (ResourceData.fresh "m-1" declaredHTTP declaredHTTP) (fixedConfig healthyClient)
    healthyClient () rfl).2 () rfl
  exact ⟨by rw [h1]; rfl, h2.2⟩

/-! ## Read -/

/-- C6: after a read that returns no error, each of url_path, http_method, expected_codes
and admin_state_up that was unset (empty) before the read is the empty string, whatever the
remote snapshot reports. -/
theorem read_keeps_unset_optional_empty {σ : Type} (d : ResourceData) (config : Config σ)
    (s : σ) (hok : (resourceLBMonitorV1Read d config s).err = none) :
    (d.Get.url_path = "" → (resourceLBMonitorV1Read d config s).d.Get.url_path = "") ∧
    (d.Get.http_method = "" →
      (resourceLBMonitorV1Read d config s).d.Get.http_method = "") ∧
    (d.Get.expected_codes = "" →
      (resourceLBMonitorV1Read d config s).d.Get.expected_codes = "") ∧
    (d.Get.admin_state_up = "" →
      (resourceLBMonitorV1Read d config s).d.Get.admin_state_up = "") := by
  obtain ⟨client, m, s1, hclient, hget⟩ := read_err_none d config s hok
  rw [read_ok d config client s s1 m hclient hget]
  refine ⟨?_, ?_, ?_, ?_⟩ <;> intro h <;> simp [readResult, ResourceData.Get] at h ⊢ <;>
    simp [h]

/-- Witness for C6: url_path unset, remote url_path `/health`, local url_path stays empty. -/
theorem read_keeps_unset_optional_empty_witness :
    snapshotM1.URLPath = "/health" ∧
    (resourceLBMonitorV1Read (ResourceData.fresh "m-1" declaredNoPath declaredNoPath)
        (fixedConfig healthyClient) ()).d.Get.url_path = "" :=
  ⟨rfl, (read_keeps_unset_optional_empty
    (ResourceData.fresh "m-1" declaredNoPath declaredNoPath) (fixedConfig healthyClient) ()
    rfl).1 rfl⟩

/-- C7 fails as stated: url_path is declared as `/` and unchanged against the applied
state, the remote snapshot reports `/health`, the read returns no error, and the local
url_path is still `/`. -/
theorem read_declared_unchanged_counterexample :
    (ResourceData.fresh "m-1" declaredHTTP declaredHTTP).Get.url_path ≠ "" ∧
    (healthyClient.Get (ResourceData.fresh "m-1" declaredHTTP declaredHTTP).Id ()).1 =
      .ok snapshotM1 ∧
    snapshotM1.URLPath = "/health" ∧
    (resourceLBMonitorV1Read (ResourceData.fresh "m-1" declaredHTTP declaredHTTP)
        (fixedConfig healthyClient) ()).err = none ∧
    (resourceLBMonitorV1Read (ResourceData.fresh "m-1" declaredHTTP declaredHTTP)
        (fixedConfig healthyClient) ()).d.Get.url_path = "/" := by
  refine ⟨by decide, rfl, rfl, rfl, ?_⟩
  rw [read_ok (ResourceData.fresh "m-1" declaredHTTP declaredHTTP) (fixedConfig healthyClient)
    healthyClient () () snapshotM1 rfl rfl]
  decide

/-- C7, amended: when the Get of a read returns the snapshot `m`, the read returns no error
and, for each of url_path, http_method, expected_codes and admin_state_up that is declared
(non-empty): if the key has changed, its local value becomes the remote value (for
admin_state_up the remote boolean formatted as `true` or `false`); if the key has not
changed, its local value stays what it was. -/
theorem read_declared_takes_remote_when_changed {σ : Type} (d : ResourceData)
    (config : Config σ) (client : NetworkClient σ) (s s1 : σ) (m : Monitor)
    (hclient : config.NewNetworkV2 d.Get.region = .ok client)
    (hget : client.Get d.Id s = (.ok m, s1)) :
    (resourceLBMonitorV1Read d config s).err = none ∧
    (d.Get.url_path ≠ "" →
      (d.HasChange .url_path = true →
        (resourceLBMonitorV1Read d config s).d.Get.url_path = m.URLPath) ∧
      (d.HasChange .url_path = false →
        (resourceLBMonitorV1Read d config s).d.Get.url_path = d.Get.url_path)) ∧
    (d.Get.http_method ≠ "" →
      (d.HasChange .http_method = true →
        (resourceLBMonitorV1Read d config s).d.Get.http_method = m.HTTPMethod) ∧
      (d.HasChange .http_method = false →
        (resourceLBMonitorV1Read d config s).d.Get.http_method = d.Get.http_method)) ∧
    (d.Get.expected_codes ≠ "" →
      (d.HasChange .expected_codes = true →
        (resourceLBMonitorV1Read d config s).d.Get.expected_codes = m.ExpectedCodes) ∧
      (d.HasChange .expected_codes = false →
        (resourceLBMonitorV1Read d config s).d.Get.expected_codes = d.Get.expected_codes)) ∧
    (d.Get.admin_state_up ≠ "" →
      (d.HasChange .admin_state_up = true →
        (resourceLBMonitorV1Read d config s).d.Get.admin_state_up =
          (if m.AdminStateUp then "true" else "false")) ∧
      (d.HasChange .admin_state_up = false →
        (resourceLBMonitorV1Read d config s).d.Get.admin_state_up =
          d.Get.admin_state_up)) := by
  rw [read_ok d config client s s1 m hclient hget]
  refine ⟨rfl, ?_, ?_, ?_, ?_⟩ <;> intro h <;> refine ⟨?_, ?_⟩ <;> intro hc <;>
    simp [readResult, ResourceData.Get, FormatBool] at h ⊢ <;> simp [h, hc]

/-- Witness for C7, amended: on the read that follows a create (nothing applied before),
the declared url_path `/` has changed and becomes the remote `/health`. -/
theorem read_declared_takes_remote_when_changed_witness :
    (resourceLBMonitorV1Read (ResourceData.fresh "m-1" noAttrs declaredHTTP)
        (fixedConfig healthyClient) ()).d.Get.url_path = "/health" :=
  ((read_declared_takes_remote_when_changed (ResourceData.fresh "m-1" noAttrs declaredHTTP)
    (fixedConfig healthyClient) healthyClient () () snapshotM1 rfl rfl).2.1
      (by decide)).1 (by decide)

/-! ## Update -/

/-- C1 fails as stated: url_path is mutable and its declared value (empty) differs from the
applied value `/`, yet the update options that are built carry no url_path. -/
theorem update_payload_counterexample :
    ∃ opts : UpdateOpts,
      updateOptsOf (ResourceData.fresh "m-1" declaredHTTP declaredNoPath) = .ok opts ∧
      Key.forceNew .url_path = false ∧
      (ResourceData.fresh "m-1" declaredHTTP declaredNoPath).HasChange .url_path = true ∧
      opts.carries .url_path = false :=
  ⟨{}, rfl, by decide, by decide, by decide⟩

/-- C1, amended: when `admin_state_up` is unchanged, empty or a boolean literal, the update
options are built; each of their fields holds the declared value when the key has changed
and the zero value otherwise (for `admin_state_up`: the parsed boolean when it has changed
and is not empty, nil otherwise); so they carry a value for a key exactly when the key is
not ForceNew, its declared value differs from the applied one and the declared value is not
the zero value of its type (non-zero int, non-empty string); the ForceNew keys region,
tenant_id and type are never carried; and once the networking client is obtained, the first
request sent by `resourceLBMonitorV1Update` is the Update request with exactly these
options. -/
theorem update_payload_carries_changed_nonzero (d : ResourceData)
    (hvalid : d.HasChange .admin_state_up = false ∨ d.Get.admin_state_up = "" ∨
      ∃ b : Bool, ParseBool d.Get.admin_state_up = some b) :
    ∃ opts : UpdateOpts,
      updateOptsOf d = .ok opts ∧
      opts.Delay = (if d.HasChange .delay then d.Get.delay else 0) ∧
      opts.Timeout = (if d.HasChange .timeout then d.Get.timeout else 0) ∧
      opts.MaxRetries = (if d.HasChange .max_retries then d.Get.max_retries else 0) ∧
      opts.URLPath = (if d.HasChange .url_path then d.Get.url_path else "") ∧
      opts.HTTPMethod = (if d.HasChange .http_method then d.Get.http_method else "") ∧
      opts.ExpectedCodes =
        (if d.HasChange .expected_codes then d.Get.expected_codes else "") ∧
      opts.AdminStateUp =
        (if (d.HasChange .admin_state_up && d.Get.admin_state_up != "") = true then
          ParseBool d.Get.admin_state_up
        else none) ∧
      (∀ k : Key, opts.carries k = true ↔
        (k.forceNew = false ∧ d.HasChange k = true ∧ d.GetOk k = true)) ∧
      (∀ k : Key, k.forceNew = true → opts.carries k = false) ∧
      ∀ (σ : Type) (config : Config σ) (client : NetworkClient σ) (s : σ),
        config.NewNetworkV2 d.Get.region = .ok client →
        (resourceLBMonitorV1Update d config s).calls.head? = some (.Update d.Id opts) := by
  obtain ⟨opts, h⟩ := updateOptsOf_built d hvalid
  obtain ⟨h1, h2, h3, h4, h5, h6, h7⟩ := updateOptsOf_fields d opts h
  refine ⟨opts, h, h1, h2, h3, h4, h5, h6, updateOptsOf_adminStateUp d opts h, ?_, ?_, ?_⟩
  · intro k
    cases k
    case region =>
      have hf : Key.forceNew .region = true := by decide
      simp [UpdateOpts.carries, hf]
    case tenant_id =>
      have hf : Key.forceNew .tenant_id = true := by decide
      simp [UpdateOpts.carries, hf]
    case type =>
      have hf : Key.forceNew .type = true := by decide
      simp [UpdateOpts.carries, hf]
    case delay =>
      have hf : Key.forceNew .delay = false := by decide
      by_cases hc : d.HasChange .delay = true <;>
        simp [UpdateOpts.carries, ResourceData.GetOk, h1, hf, hc]
    case timeout =>
      have hf : Key.forceNew .timeout = false := by decide
      by_cases hc : d.HasChange .timeout = true <;>
        simp [UpdateOpts.carries, ResourceData.GetOk, h2, hf, hc]
    case max_retries =>
      have hf : Key.forceNew .max_retries = false := by decide
      by_cases hc : d.HasChange .max_retries = true <;>
        simp [UpdateOpts.carries, ResourceData.GetOk, h3, hf, hc]
    case url_path =>
      have hf : Key.forceNew .url_path = false := by decide
      by_cases hc : d.HasChange .url_path = true <;>
        simp [UpdateOpts.carries, ResourceData.GetOk, h4, hf, hc]
    case http_method =>
      have hf : Key.forceNew .http_method = false := by decide
      by_cases hc : d.HasChange .http_method = true <;>
        simp [UpdateOpts.carries, ResourceData.GetOk, h5, hf, hc]
    case expected_codes =>
      have hf : Key.forceNew .expected_codes = false := by decide
      by_cases hc : d.HasChange .expected_codes = true <;>
        simp [UpdateOpts.carries, ResourceData.GetOk, h6, hf, hc]
    case admin_state_up =>
      have hf : Key.forceNew .admin_state_up = false := by decide
      by_cases hc : d.HasChange .admin_state_up = true <;>
        simp [UpdateOpts.carries, ResourceData.GetOk, h7, hf, hc]
  · intro k hk
    cases k <;> first | rfl | (exfalso; revert hk; decide)
  · intro σ config client s hclient
    rcases hu : client.Update d.Id opts s with ⟨r, s1⟩
    cases r with
    | error e => rw [update_error d config client s s1 opts e hclient h hu]; rfl
    | ok m => rw [update_ok d config client s s1 opts m hclient h hu]; rfl

/-- Witness for C1, amended: when `admin_state_up` changes from unset to `true`, the options
are built and carry `admin_state_up` as true, and carry nothing for delay. -/
theorem update_payload_carries_changed_nonzero_witness :
    ∃ opts : UpdateOpts,
      updateOptsOf (ResourceData.fresh "m-1" declaredHTTP declaredAdminUp) = .ok opts ∧
      opts.AdminStateUp = some true ∧ opts.Delay = 0 ∧
      opts.carries .admin_state_up = true := by
  obtain ⟨opts, hb, hd, _, _, _, _, _, ha, hc, _, _⟩ :=
    update_payload_carries_changed_nonzero
      (ResourceData.fresh "m-1" declaredHTTP declaredAdminUp)
      (Or.inr (Or.inr ⟨true, by decide⟩))
  exact ⟨opts, hb, ha, hd, (hc .admin_state_up).2 (by decide)⟩

/-- C2 fails as stated: the declared and the applied values agree on every mutable key, and
`resourceLBMonitorV1Update` still sends an Update request (with empty options). -/
theorem update_no_change_counterexample :
    (∀ k : Key, k.forceNew = false →
      (ResourceData.fresh "m-1" declaredHTTP declaredHTTP).HasChange k = false) ∧
    Call.Update "m-1" {} ∈
      (resourceLBMonitorV1Update (ResourceData.fresh "m-1" declaredHTTP declaredHTTP)
        (fixedConfig healthyClient) ()).calls := by
  refine ⟨?_, ?_⟩
  · intro k _
    cases k <;> decide
  · rw [update_ok (ResourceData.fresh "m-1" declaredHTTP declaredHTTP)
      (fixedConfig healthyClient) healthyClient () () {} snapshotM1 rfl rfl rfl]
    exact List.mem_cons_self _ _

/-- C2, amended: when the declared and the applied values agree on every mutable key, the
update options are built and are empty (the zero value: no key carried), and once the
networking client is obtained `resourceLBMonitorV1Update` sends exactly one Update request,
for the identity and with these empty options, followed at most by the Get request of the
read. -/
theorem update_no_change_sends_empty_update {σ : Type} (d : ResourceData) (config : Config σ)
    (client : NetworkClient σ) (s : σ)
    (hsame : ∀ k : Key, k.forceNew = false → d.HasChange k = false)
    (hclient : config.NewNetworkV2 d.Get.region = .ok client) :
    updateOptsOf d = .ok {} ∧
    (∀ k : Key, UpdateOpts.carries {} k = false) ∧
    ((resourceLBMonitorV1Update d config s).calls = [.Update d.Id {}] ∨
      (resourceLBMonitorV1Update d config s).calls = [.Update d.Id {}, .Get d.Id]) := by
  have hopts : updateOptsOf d = .ok {} := by
    simp [updateOptsOf, hsame .delay (by decide), hsame .timeout (by decide),
      hsame .max_retries (by decide), hsame .url_path (by decide),
      hsame .http_method (by decide), hsame .expected_codes (by decide),
      hsame .admin_state_up (by decide)]
  refine ⟨hopts, ?_, ?_⟩
  · intro k
    cases k <;> rfl
  · rcases hu : client.Update d.Id {} s with ⟨r, s1⟩
    cases r with
    | error e =>
      left
      rw [update_error d config client s s1 {} e hclient hopts hu]
    | ok m =>
      rw [update_ok d config client s s1 {} m hclient hopts hu]
      rcases read_calls d config s1 with hr | hr
      · left
        simp [hr]
      · right
        simp [hr]

/-- Witness for C2, amended: nothing changed, and the requests sent are the empty Update
followed by the Get of the read. -/
theorem update_no_change_sends_empty_update_witness :
    (resourceLBMonitorV1Update (ResourceData.fresh "m-1" declaredHTTP declaredHTTP)
        (fixedConfig healthyClient) ()).calls = [.Update "m-1" {}, .Get "m-1"] := by
  rcases (update_no_change_sends_empty_update
    (ResourceData.fresh "m-1" declaredHTTP declaredHTTP) (fixedConfig healthyClient)
    healthyClient () (by intro k _; cases k <;> decide) rfl).2.2 with h | h
  · rw [update_ok (ResourceData.fresh "m-1" declaredHTTP declaredHTTP)
      (fixedConfig healthyClient) healthyClient () () {} snapshotM1 rfl rfl rfl] at h
    rw [read_ok (ResourceData.fresh "m-1" declaredHTTP declaredHTTP)
      (fixedConfig healthyClient) healthyClient () () snapshotM1 rfl rfl] at h
    simp at h
  · exact h

/-- C9: when the update options are built and the remote Update succeeds, the error, the
resource data and the remote state that `resourceLBMonitorV1Update` leaves are those of
`resourceLBMonitorV1Read` on the same resource data after the Update, and the requests are
the Update followed by those of the read; when the Get of that read returns `g`, the update
returns no error and leaves the read result for `g`; and a second run whose client differs
only in the snapshot answered by Update ends exactly as the first. -/
theorem update_ends_with_read {σ : Type} (d : ResourceData) (config : Config σ)
    (client : NetworkClient σ) (s s1 : σ) (opts : UpdateOpts) (m : Monitor)
    (hclient : config.NewNetworkV2 d.Get.region = .ok client)
    (hopts : updateOptsOf d = .ok opts)
    (hupd : client.Update d.Id opts s = (.ok m, s1)) :
    (resourceLBMonitorV1Update d config s).err = (resourceLBMonitorV1Read d config s1).err ∧
    (resourceLBMonitorV1Update d config s).d = (resourceLBMonitorV1Read d config s1).d ∧
    (resourceLBMonitorV1Update d config s).remote =
      (resourceLBMonitorV1Read d config s1).remote ∧
    (resourceLBMonitorV1Update d config s).calls =
      .Update d.Id opts :: (resourceLBMonitorV1Read d config s1).calls ∧
    (∀ (g : Monitor) (s2 : σ), client.Get d.Id s1 = (.ok g, s2) →
      resourceLBMonitorV1Update d config s =
        ⟨none, readResult d g, s2, [.Update d.Id opts, .Get d.Id]⟩) ∧
    ∀ (config2 : Config σ) (client2 : NetworkClient σ) (m2 : Monitor),
      config2.NewNetworkV2 d.Get.region = .ok client2 →
      client2.Get = client.Get →
      client2.Update d.Id opts s = (.ok m2, s1) →
      resourceLBMonitorV1Update d config2 s = resourceLBMonitorV1Update d config s := by
  have hu := update_ok d config client s s1 opts m hclient hopts hupd
  refine ⟨by rw [hu], by rw [hu], by rw [hu], by rw [hu], ?_, ?_⟩
  · intro g s2 hg
    rw [hu, read_ok d config client s1 s2 g hclient hg]
  · intro config2 client2 m2 hclient2 hget hupd2
    rw [hu, update_ok d config2 client2 s s1 opts m2 hclient2 hopts hupd2,
      read_congr d config config2 client client2 s1 hclient hclient2 hget]

/-- Witness for C9: delay is raised to 20 against a remote store; one client answers the
Update with the stored snapshot, the other with a stale one, and both runs end the same. -/
theorem update_ends_with_read_witness :
    resourceLBMonitorV1Update (ResourceData.fresh "m-1" declaredHTTP declaredDelay20)
        (fixedConfig (storeClient snapshotStale)) snapshotM1 =
      resourceLBMonitorV1Update (ResourceData.fresh "m-1" declaredHTTP declaredDelay20)
        (fixedConfig (storeClient snapshotM1)) snapshotM1 :=
  (update_ends_with_read (ResourceData.fresh "m-1" declaredHTTP declaredDelay20)
    (fixedConfig (storeClient snapshotM1)) (storeClient snapshotM1) snapshotM1
    { snapshotM1 with Delay := 20 } { Delay := 20 } snapshotM1 rfl rfl rfl).2.2.2.2.2
    (fixedConfig (storeClient snapshotStale)) (storeClient snapshotStale) snapshotStale
    rfl rfl rfl

/-! ## Create: failures of the remote client -/

/-- C8 fails as stated: the identity is empty at the start, the declared HTTP monitor has
every attribute the create request needs (url_path `/`, http_method `GET`, expected_codes
`200`, delay 10 not below timeout 5), the remote Create succeeds with ID `m-1`, the
read-back Get fails, and `resourceLBMonitorV1Create` returns an error with the identity set
to `m-1`. -/
theorem create_readback_failure_counterexample :
    (ResourceData.fresh "" noAttrs declaredFull).Id = "" ∧
    createOptsOf (ResourceData.fresh "" noAttrs declaredFull) =
      .ok { TenantID := "", Typ := "HTTP", Delay := 10, Timeout := 5, MaxRetries := 3,
            URLPath := "/", ExpectedCodes := "200", HTTPMethod := "GET",
            AdminStateUp := none } ∧
    (createOnlyClient.Create
        { TenantID := "", Typ := "HTTP", Delay := 10, Timeout := 5, MaxRetries := 3,
          URLPath := "/", ExpectedCodes := "200", HTTPMethod := "GET",
          AdminStateUp := none } ()).1 = .ok snapshotM1 ∧
    (createOnlyClient.Get "m-1" ()).1 = .error (.Other "connection reset") ∧
    (resourceLBMonitorV1Create (ResourceData.fresh "" noAttrs declaredFull)
        (fixedConfig createOnlyClient) ()).err =
      some "Error retrieving OpenStack LB Monitor: connection reset" ∧
    (resourceLBMonitorV1Create (ResourceData.fresh "" noAttrs declaredFull)
        (fixedConfig createOnlyClient) ()).d.Id = "m-1" ∧
    (resourceLBMonitorV1Create (ResourceData.fresh "" noAttrs declaredFull)
        (fixedConfig createOnlyClient) ()).calls.length = 2 := by
  refine ⟨rfl, rfl, rfl, rfl, ?_, ?_, ?_⟩ <;> decide

/-- C8, amended: with an empty identity at the start and the create options built, a
failing remote Create makes `resourceLBMonitorV1Create` return an error with the identity
still empty; a remote Create that succeeds with monitor `m` followed by a failing read-back
Get makes it return an error with the identity set to the ID of `m`. -/
theorem create_failure_identity {σ : Type} (d : ResourceData) (config : Config σ)
    (client : NetworkClient σ) (s : σ) (opts : CreateOpts) (hid : d.Id = "")
    (hclient : config.NewNetworkV2 d.Get.region = .ok client)
    (hopts : createOptsOf d = .ok opts) :
    (∀ (e : RemoteError) (s1 : σ), client.Create opts s = (.error e, s1) →
      (resourceLBMonitorV1Create d config s).err =
        some ("Error creating OpenStack LB Monitor: " ++ e.Error) ∧
      (resourceLBMonitorV1Create d config s).d = d ∧
      (resourceLBMonitorV1Create d config s).d.Id = "") ∧
    (∀ (m : Monitor) (s1 : σ) (e : RemoteError) (s2 : σ),
      client.Create opts s = (.ok m, s1) → client.Get m.ID s1 = (.error e, s2) →
      (resourceLBMonitorV1Create d config s).err =
        some ("Error retrieving OpenStack LB Monitor: " ++ e.Error) ∧
      (resourceLBMonitorV1Create d config s).d = d.SetId m.ID ∧
      (resourceLBMonitorV1Create d config s).d.Id = m.ID) := by
  refine ⟨?_, ?_⟩
  · intro e s1 hc
    unfold resourceLBMonitorV1Create
    rw [hclient]
    simp only [hopts, hc]
    exact ⟨trivial, trivial, hid⟩
  · intro m s1 e s2 hc hg
    have hr := read_get_error (d.SetId m.ID) config client s1 s2 e hclient hg
    unfold resourceLBMonitorV1Create
    rw [hclient]
    simp only [hopts, hc, hr]
    exact ⟨trivial, trivial, rfl⟩

/-- Witness for C8, amended: for the fully declared HTTP monitor, a refused Create leaves
the identity empty, a failed read-back leaves it at `m-1`. -/
theorem create_failure_identity_witness :
    (resourceLBMonitorV1Create (ResourceData.fresh "" noAttrs declaredFull)
        (fixedConfig refusingClient) ()).d.Id = "" ∧
    (resourceLBMonitorV1Create (ResourceData.fresh "" noAttrs declaredFull)
        (fixedConfig createOnlyClient) ()).d.Id = "m-1" :=
  ⟨((create_failure_identity (ResourceData.fresh "" noAttrs declaredFull)
      (fixedConfig refusingClient) refusingClient () _ rfl rfl rfl).1
      (.Other "quota exceeded") () rfl).2.2,
   ((create_failure_identity (ResourceData.fresh "" noAttrs declaredFull)
      (fixedConfig createOnlyClient) createOnlyClient () _ rfl rfl rfl).2
      snapshotM1 () (.Other "connection reset") () rfl rfl).2.2⟩

end LBMonitorV1
